import Mathlib

/-!
Verification of the browser-use orchestration layer.

This file gives a shallow embedding of the two source modules
`situation_summarizer.py` and `main.py` and proves the specified
properties about them.  The external collaborators (the browser
automation library and the model client) are represented by the slices
of their interfaces the orchestration layer actually touches: fetching
the page state and invoking the model are passed in as result-valued
parameters, so that both success and failure of each external step can
be analysed.
-/

namespace BrowserUse

/-- A typed content part of a user message, as in the external message
model: a text part, or an image part carrying a data URL and a media
type. -/
inductive ContentPart where
  | text (t : String)
  | image (url : String) (media_type : String)
deriving DecidableEq, Repr

/-- Whether a content part is an image part. -/
def ContentPart.isImage : ContentPart → Bool
  | .image _ _ => true
  | _ => false

/-- Whether a content part is a text part. -/
def ContentPart.isText : ContentPart → Bool
  | .text _ => true
  | _ => false

/-- A role-tagged message sent to the model client: a system message
with string content, or a user message with a list of content parts. -/
inductive Message where
  | system (content : String)
  | user (content : List ContentPart)
deriving DecidableEq, Repr

/-- The slice of the external DOM state object used by the summarizer:
`llm_representation` is `some` exactly when the object exposes the
textualization method, and then holds the text that calling the method
returns. -/
structure DomState where
  llm_representation : Option String
deriving DecidableEq, Repr

/-- The slice of the external `BrowserStateSummary` used by
`SituationSummarizer.summarize`: an optional DOM state and an optional
base64-encoded screenshot string. -/
structure BrowserStateSummary where
  dom_state : Option DomState
  screenshot : Option String
deriving DecidableEq, Repr

/-- Python truthiness of an optional string value (as in
`if state.screenshot:`): `None` and the empty string are falsy, any
non-empty string is truthy. -/
def optStrTruthy : Option String → Bool
  | none => false
  | some s => !(s == "")

/-- A Python attribute value as seen by
`getattr(response, "completion", str(response))`: either a string, or
some other object carried together with its `str()` rendering. -/
inductive PyVal where
  | str (s : String)
  | other (rendering : String)
deriving DecidableEq, Repr

/-- The string a `PyVal` is coerced to by
`if not isinstance(content, str): content = str(content)`. -/
def PyVal.toStr : PyVal → String
  | .str s => s
  | .other r => r

/-- The slice of the model client response object used by the
summarizer: an optional `completion` attribute, and the `str()`
rendering of the whole response object. -/
structure LLMResponse where
  completion : Option PyVal
  str_of_response : String
deriving DecidableEq, Repr

/-- The result envelope returned by `SituationSummarizer.summarize`. -/
structure SituationSummary where
  raw_response : String
  summary : String
  suggested_actions : String
deriving DecidableEq, Repr

/-- The fixed fallback used when the UI element list cannot be
textualized (`situation_summarizer.py`, line 43). -/
def uiFallbackText : String := "UI要素リストを取得できませんでした。"

/-- The fixed default question substituted for an empty summarization
query (`main.py`, line 81; compared against in
`situation_summarizer.py`, line 46). -/
def defaultQuery : String := "今の画面はどうなっている？"

/-- The fixed placeholder stored in the `summary` and
`suggested_actions` fields (`situation_summarizer.py`, lines 106-107). -/
def placeholderText : String := "詳細は raw_response を参照"

/-- Lines 40-43 of `situation_summarizer.py`: textualize the UI element
list via `dom_state.llm_representation()` when the DOM state is present
and exposes that method, else substitute the fixed fallback text. -/
def ui_elements_text (state : BrowserStateSummary) : String :=
  match state.dom_state with
  | some d =>
    match d.llm_representation with
    | some t => t
    | none => uiFallbackText
  | none => uiFallbackText

/-- Lines 45-47 of `situation_summarizer.py`: the extra instruction
appended to the system prompt when a truthy, non-default user query was
supplied. -/
def query_instruction (user_query : String) : String :=
  if user_query ≠ "" ∧ user_query ≠ defaultQuery then
    "\n\nユーザーからは「" ++ user_query
      ++ "」という関心・疑問が提示されています。これに対する回答を含めて要約してください。"
  else ""

/-- Lines 49-59 of `situation_summarizer.py`: the system prompt, with
the query instruction interpolated after the third line. -/
def system_prompt (user_query : String) : String :=
  "あなたは優れたUI/UXアナリストです。\n現在ユーザーが開いているWebページのスクリーンショットと、検出されたUI要素のリストが提供されます。\nこれらを空間的に完全に結びつけて分析し、以下の2点を出力してください。"
    ++ query_instruction user_query
    ++ "\n\n1. **状況要約**: \n   画面上に映っている画面が現在どういう状況にあるか（何のためのページか、どういう状態か）を簡潔に説明してください。\n   \n2. **主な操作内容**: \n   このサイト上で可能な操作内容の上位3〜5件程度をリストアップしてください。\n   各操作には、必ず対応するUI要素の番号（例: [12]）を併記してください。\n"

/-- Lines 67-71 of `situation_summarizer.py`: the text part of the user
message, embedding the rendered UI element list. -/
def user_text (uiText : String) : String :=
  "以下のUI要素リストと添付のスクリーンショットをもとに、画面状況を要約してください。\n\n## UI要素リスト\n"
    ++ uiText

/-- Lines 64-84 of `situation_summarizer.py`: the composed user-message
content list, together with a flag that is `true` exactly when the
missing-screenshot warning was logged.  The image part is appended only
when `state.screenshot` is truthy (non-`None` and non-empty). -/
def content_list (state : BrowserStateSummary) : List ContentPart × Bool :=
  let base := [ContentPart.text (user_text (ui_elements_text state))]
  match state.screenshot with
  | some shot =>
    if shot == "" then (base, true)
    else
      (base ++ [ContentPart.image ("data:image/png;base64," ++ shot) "image/png"], false)
  | none => (base, true)

/-- Lines 87-90 of `situation_summarizer.py`: the message list sent to
the model client — one system message followed by one user message. -/
def build_messages (user_query : String) (state : BrowserStateSummary) :
    List Message :=
  [Message.system (system_prompt user_query),
   Message.user (content_list state).1]

/-- Lines 98-100 of `situation_summarizer.py`: extract the reply text
from the response — its `completion` attribute when present, else
`str(response)`, coerced to a string in either case. -/
def extract_content (response : LLMResponse) : String :=
  match response.completion with
  | some v => v.toStr
  | none => response.str_of_response

/-- The observable outcome of one `SituationSummarizer.summarize` call:
the returned envelope or the re-raised exception, the message list that
was sent to the model client (if the call got that far), whether the
missing-screenshot warning was logged, and whether an error trace was
logged. -/
structure SummarizeOutcome (E : Type) where
  result : Except E SituationSummary
  sent_messages : Option (List Message)
  warned_no_screenshot : Bool
  logged_error_trace : Bool

/-- `SituationSummarizer.summarize` (lines 31-112 of
`situation_summarizer.py`).  The browser-state fetch is given by its
result `fetch`; the model client is given as a function from the sent
message list to its response.  Any exception from either external step
is logged with a trace and re-raised unchanged (`raise e`). -/
def summarize (E : Type) (user_query : String)
    (fetch : Except E BrowserStateSummary)
    (llm_ainvoke : List Message → Except E LLMResponse) :
    SummarizeOutcome E :=
  match fetch with
  | .error e =>
    { result := .error e, sent_messages := none,
      warned_no_screenshot := false, logged_error_trace := true }
  | .ok state =>
    let msgs := build_messages user_query state
    let warned := (content_list state).2
    match llm_ainvoke msgs with
    | .error e =>
      { result := .error e, sent_messages := some msgs,
        warned_no_screenshot := warned, logged_error_trace := true }
    | .ok response =>
      { result := .ok { raw_response := extract_content response,
                        summary := placeholderText,
                        suggested_actions := placeholderText },
        sent_messages := some msgs,
        warned_no_screenshot := warned, logged_error_trace := false }

/-- Lines 114-120 of `situation_summarizer.py`: the wrapper called by
`main.py`, returning `result.raw_response` on success and propagating
the exception otherwise. -/
def summarize_page_state_from_session (E : Type) (user_query : String)
    (fetch : Except E BrowserStateSummary)
    (llm_ainvoke : List Message → Except E LLMResponse) :
    Except E String :=
  match (summarize E user_query fetch llm_ainvoke).result with
  | .ok r => .ok r.raw_response
  | .error e => .error e

/-- Python `str.strip()` with no argument: remove whitespace from both
ends of the string. -/
def pyStrip (s : String) : String :=
  ⟨((s.data.dropWhile Char.isWhitespace).reverse.dropWhile
      Char.isWhitespace).reverse⟩

/-- The observable effects of one iteration of the menu loop in `main`
(`main.py`, lines 44-97): whether the loop continues, the task text an
agent was constructed with (if any), the query passed to the summarizer
(if any), what was printed, and whether the browser handle was
terminated during the iteration. -/
structure IterResult (E : Type) where
  continue_loop : Bool
  agent_task : Option String
  summarizer_query : Option String
  printed_summary : Option String
  printed_agent_error : Option E
  printed_summary_error : Option E
  printed_run_task_first_hint : Bool
  terminated_browser : Bool
deriving DecidableEq, Repr

/-- The iteration outcome when no branch dispatches: the loop simply
returns to re-display the menu. -/
def noDispatch (E : Type) : IterResult E :=
  { continue_loop := true, agent_task := none, summarizer_query := none,
    printed_summary := none, printed_agent_error := none,
    printed_summary_error := none, printed_run_task_first_hint := false,
    terminated_browser := false }

/-- One iteration of the menu loop in `main` (`main.py`, lines 44-97).
`choice_raw` is the raw menu input (stripped by the code, line 52),
`task_input` the raw task text for option 1 (not stripped, line 60),
`query_raw` the raw query for option 2 (stripped, line 79).  The agent
run and the summarization service are given as result-valued
functions. -/
def loop_iteration (E : Type) (choice_raw task_input query_raw : String)
    (agent_run : String → Except E Unit)
    (summarize_svc : String → Except E String) : IterResult E :=
  let choice := pyStrip choice_raw
  if choice == "q" then
    { noDispatch E with continue_loop := false }
  else if choice == "1" then
    if task_input == "" then noDispatch E
    else
      match agent_run task_input with
      | .ok _ => { noDispatch E with agent_task := some task_input }
      | .error e =>
        { noDispatch E with
            agent_task := some task_input
            printed_agent_error := some e }
  else if choice == "2" then
    let stripped := pyStrip query_raw
    let user_query := if stripped == "" then defaultQuery else stripped
    match summarize_svc user_query with
    | .ok s =>
      { noDispatch E with
          summarizer_query := some user_query
          printed_summary := some s }
    | .error e =>
      { noDispatch E with
          summarizer_query := some user_query
          printed_summary_error := some e
          printed_run_task_first_hint := true }
  else noDispatch E

/-- Termination capability surface of the browser handle: each field is
`some` exactly when `hasattr` finds the corresponding method, holding
the outcome of calling it. -/
structure BrowserHandle (E : Type) where
  kill : Option (Except E Unit)
  stop : Option (Except E Unit)
deriving Repr

/-- The observable effects of the shutdown block: how often each
termination method was invoked, whether the no-method message was
logged, which exception was caught and logged, and which exception
escaped the block. -/
structure ShutdownEffects (E : Type) where
  kill_calls : Nat
  stop_calls : Nat
  logged_no_method : Bool
  caught_error : Option E
  propagated_error : Option E
deriving DecidableEq, Repr

/-- The `finally` block of `main` (`main.py`, lines 99-113): invoke
`kill` if exposed, else `stop` if exposed, else log that no termination
method was found; any exception is caught and logged. -/
def shutdown_browser (E : Type) (b : BrowserHandle E) : ShutdownEffects E :=
  match b.kill with
  | some (.ok _) =>
    { kill_calls := 1, stop_calls := 0, logged_no_method := false,
      caught_error := none, propagated_error := none }
  | some (.error e) =>
    { kill_calls := 1, stop_calls := 0, logged_no_method := false,
      caught_error := some e, propagated_error := none }
  | none =>
    match b.stop with
    | some (.ok _) =>
      { kill_calls := 0, stop_calls := 1, logged_no_method := false,
        caught_error := none, propagated_error := none }
    | some (.error e) =>
      { kill_calls := 0, stop_calls := 1, logged_no_method := false,
        caught_error := some e, propagated_error := none }
    | none =>
      { kill_calls := 0, stop_calls := 0, logged_no_method := true,
        caught_error := none, propagated_error := none }

/-- A sample DOM state exposing the textualization method. -/
def sampleDom : DomState := { llm_representation := some "[1]<button>OK</button>" }

/-- A sample page state with a DOM state and a non-empty screenshot. -/
def sampleState : BrowserStateSummary :=
  { dom_state := some sampleDom, screenshot := some "QUJD" }

/-- A sample page state with no DOM state and no screenshot. -/
def sampleBareState : BrowserStateSummary :=
  { dom_state := none, screenshot := none }

/-- A sample page state whose screenshot field holds the empty string. -/
def sampleEmptyShotState : BrowserStateSummary :=
  { dom_state := some sampleDom, screenshot := some "" }

/-- A sample model response carrying a string `completion` attribute. -/
def sampleResponse : LLMResponse :=
  { completion := some (PyVal.str "the page shows a form"),
    str_of_response := "LLMResponse-object" }

/-- A model client that always answers with `sampleResponse`. -/
def sampleLLM : List Message → Except String LLMResponse :=
  fun _ => Except.ok sampleResponse

/-- A model client that always raises. -/
def failLLM : List Message → Except String LLMResponse :=
  fun _ => Except.error "boom"

/-- C7: the shutdown block invokes exactly one termination operation on
the browser handle — `kill` when exposed, else `stop` when exposed; if
neither is exposed it only logs that no termination method was found;
any exception raised during termination is caught and logged and never
propagated. -/
theorem shutdown_terminates_once_never_propagates (E : Type)
    (b : BrowserHandle E) :
    (shutdown_browser E b).propagated_error = none ∧
    (shutdown_browser E b).kill_calls + (shutdown_browser E b).stop_calls ≤ 1 ∧
    (∀ o, b.kill = some o →
      (shutdown_browser E b).kill_calls = 1 ∧
      (shutdown_browser E b).stop_calls = 0 ∧
      (shutdown_browser E b).logged_no_method = false ∧
      ∀ e, o = Except.error e →
        (shutdown_browser E b).caught_error = some e) ∧
    (b.kill = none → ∀ o, b.stop = some o →
      (shutdown_browser E b).kill_calls = 0 ∧
      (shutdown_browser E b).stop_calls = 1 ∧
      (shutdown_browser E b).logged_no_method = false ∧
      ∀ e, o = Except.error e →
        (shutdown_browser E b).caught_error = some e) ∧
    (b.kill = none → b.stop = none →
      (shutdown_browser E b).kill_calls = 0 ∧
      (shutdown_browser E b).stop_calls = 0 ∧
      (shutdown_browser E b).logged_no_method = true) := by
  obtain ⟨k, s⟩ := b
  rcases k with _ | o₁
  · rcases s with _ | o₂
    · simp [shutdown_browser]
    · rcases o₂ with e | u <;> simp [shutdown_browser]
  · rcases o₁ with e | u <;> simp [shutdown_browser]

/-- C7 witness: a handle exposing only a failing `kill` is killed once,
the error is caught, and nothing propagates. -/
theorem shutdown_terminates_once_never_propagates_witness :
    (shutdown_browser String ⟨some (Except.error "down"), none⟩).kill_calls = 1 ∧
    (shutdown_browser String ⟨some (Except.error "down"), none⟩).caught_error
      = some "down" ∧
    (shutdown_browser String ⟨some (Except.error "down"), none⟩).propagated_error
      = none := by
  have h := shutdown_terminates_once_never_propagates String
    ⟨some (Except.error "down"), none⟩
  exact ⟨(h.2.2.1 _ rfl).1, (h.2.2.1 _ rfl).2.2.2 _ rfl, h.1⟩

/-- C8: for every menu input whose stripped form is none of `1`, `2`
and `q`, one loop iteration performs no dispatch — no agent run, no
summarizer call, no termination — and continues to re-display the
menu. -/
theorem unrecognized_input_no_dispatch (E : Type)
    (choice_raw task_input query_raw : String)
    (agent_run : String → Except E Unit)
    (svc : String → Except E String)
    (h1 : pyStrip choice_raw ≠ "1") (h2 : pyStrip choice_raw ≠ "2")
    (hq : pyStrip choice_raw ≠ "q") :
    loop_iteration E choice_raw task_input query_raw agent_run svc
      = noDispatch E ∧
    (loop_iteration E choice_raw task_input query_raw agent_run svc).continue_loop
      = true ∧
    (loop_iteration E choice_raw task_input query_raw agent_run svc).agent_task
      = none ∧
    (loop_iteration E choice_raw task_input query_raw agent_run svc).summarizer_query
      = none ∧
    (loop_iteration E choice_raw task_input query_raw agent_run svc).terminated_browser
      = false := by
  simp [loop_iteration, h1, h2, hq, noDispatch]

/-- C8 witness: the concrete input `3` dispatches nothing. -/
theorem unrecognized_input_no_dispatch_witness :
    loop_iteration String "3" "t" "q?" (fun _ => Except.ok ())
        (fun _ => Except.ok "sum")
      = noDispatch String := by
  exact (unrecognized_input_no_dispatch String "3" "t" "q?"
    (fun _ => Except.ok ()) (fun _ => Except.ok "sum")
    (by decide) (by decide) (by decide)).1

/-- C10: the option-1 task text is used without stripping — only the
exactly-empty string skips agent construction, and any other string,
whitespace-only included, is passed to the agent verbatim. -/
theorem option1_task_verbatim (E : Type)
    (choice_raw task_input query_raw : String)
    (agent_run : String → Except E Unit)
    (svc : String → Except E String)
    (hc : pyStrip choice_raw = "1") :
    (task_input = "" →
      loop_iteration E choice_raw task_input query_raw agent_run svc
        = noDispatch E) ∧
    (task_input ≠ "" →
      (loop_iteration E choice_raw task_input query_raw agent_run
          svc).agent_task = some task_input ∧
      (loop_iteration E choice_raw task_input query_raw agent_run
          svc).summarizer_query = none ∧
      (loop_iteration E choice_raw task_input query_raw agent_run
          svc).continue_loop = true) := by
  constructor
  · intro he
    simp [loop_iteration, hc, he]
  · intro hne
    rcases hr : agent_run task_input with e | u <;>
      simp [loop_iteration, hc, hne, hr, noDispatch]

/-- C10 witness: a whitespace-only task string is treated as non-empty
and the agent is constructed with precisely that string. -/
theorem option1_task_verbatim_witness :
    (loop_iteration String "1" "   " "" (fun _ => Except.ok ())
        (fun _ => Except.ok "sum")).agent_task = some "   " := by
  exact ((option1_task_verbatim String "1" "   " "" (fun _ => Except.ok ())
    (fun _ => Except.ok "sum") (by decide)).2 (by decide)).1

/-- C3: whatever the model answers, the returned `SituationSummary` has
its `summary` and `suggested_actions` fields equal to the same fixed
placeholder string; only `raw_response` depends on the reply. -/
theorem summary_fields_fixed_placeholder (E : Type) (q : String)
    (fetch : Except E BrowserStateSummary)
    (llm : List Message → Except E LLMResponse) (s : SituationSummary)
    (h : (summarize E q fetch llm).result = Except.ok s) :
    s.summary = placeholderText ∧ s.suggested_actions = placeholderText ∧
    s.summary = s.suggested_actions := by
  rcases fetch with e | state
  · simp [summarize] at h
  · rcases hl : llm (build_messages q state) with e | resp <;>
      simp [summarize, hl] at h
    subst h
    exact ⟨rfl, rfl, rfl⟩

/-- C3 witness: with the sample state and the sample model client, both
fields are the placeholder. -/
theorem summary_fields_fixed_placeholder_witness :
    (∃ s, (summarize String "Q" (Except.ok sampleState) sampleLLM).result
        = Except.ok s ∧ s.summary = placeholderText ∧
        s.suggested_actions = placeholderText) := by
  refine ⟨{ raw_response := "the page shows a form",
            summary := placeholderText,
            suggested_actions := placeholderText }, rfl, ?_⟩
  have h := summary_fields_fixed_placeholder String "Q"
    (Except.ok sampleState) sampleLLM
    { raw_response := "the page shows a form",
      summary := placeholderText,
      suggested_actions := placeholderText } rfl
  exact ⟨h.1, h.2.1⟩

/-- C4: the raw reply text stored in `raw_response` is the value of the
response object's `completion` attribute when present (coerced to a
string when it is not already one), else the string conversion of the
whole response object. -/
theorem raw_response_from_completion (E : Type) (q : String)
    (state : BrowserStateSummary)
    (llm : List Message → Except E LLMResponse)
    (resp : LLMResponse) (s : SituationSummary)
    (hl : llm (build_messages q state) = Except.ok resp)
    (h : (summarize E q (Except.ok state) llm).result = Except.ok s) :
    s.raw_response = extract_content resp ∧
    (∀ v, resp.completion = some v → s.raw_response = v.toStr) ∧
    (∀ t, resp.completion = some (PyVal.str t) → s.raw_response = t) ∧
    (resp.completion = none → s.raw_response = resp.str_of_response) := by
  simp [summarize, hl] at h
  subst h
  refine ⟨rfl, ?_, ?_, ?_⟩
  · intro v hv
    simp [extract_content, hv]
  · intro t ht
    simp [extract_content, ht, PyVal.toStr]
  · intro hn
    simp [extract_content, hn]

/-- C4 witness: with the sample response, `raw_response` is exactly the
`completion` string. -/
theorem raw_response_from_completion_witness :
    ∃ s, (summarize String "Q" (Except.ok sampleState) sampleLLM).result
        = Except.ok s ∧ s.raw_response = "the page shows a form" := by
  refine ⟨{ raw_response := "the page shows a form",
            summary := placeholderText,
            suggested_actions := placeholderText }, rfl, ?_⟩
  exact (raw_response_from_completion String "Q" sampleState sampleLLM
    sampleResponse _ rfl rfl).2.2.1 "the page shows a form" rfl

/-- C5: when the page state's DOM state is absent or lacks the
textualization method, the summarizer does not fail at that step: the
rendered UI list is the fixed fallback text, the first (text) content
part embeds it, and the call still succeeds whenever the model client
does. -/
theorem ui_fallback_when_unrenderable (E : Type) (q : String)
    (state : BrowserStateSummary)
    (llm : List Message → Except E LLMResponse)
    (h : state.dom_state = none ∨
      ∃ d, state.dom_state = some d ∧ d.llm_representation = none) :
    ui_elements_text state = uiFallbackText ∧
    (content_list state).1.head?
      = some (ContentPart.text (user_text uiFallbackText)) ∧
    (∀ resp, llm (build_messages q state) = Except.ok resp →
      (summarize E q (Except.ok state) llm).result
        = Except.ok { raw_response := extract_content resp,
                      summary := placeholderText,
                      suggested_actions := placeholderText }) := by
  have hui : ui_elements_text state = uiFallbackText := by
    rcases h with hd | ⟨d, hd, hr⟩
    · simp [ui_elements_text, hd]
    · simp [ui_elements_text, hd, hr]
  refine ⟨hui, ?_, ?_⟩
  · rcases hs : state.screenshot with _ | shot
    · simp [content_list, hs, hui]
    · by_cases he : shot == "" <;> simp [content_list, hs, hui, he]
  · intro resp hl
    simp [summarize, hl]

/-- C5 witness: the bare sample state (no DOM state) yields the
fallback text part and a successful summary. -/
theorem ui_fallback_when_unrenderable_witness :
    ui_elements_text sampleBareState = uiFallbackText ∧
    (content_list sampleBareState).1.head?
      = some (ContentPart.text (user_text uiFallbackText)) := by
  have h := ui_fallback_when_unrenderable String "Q" sampleBareState
    sampleLLM (Or.inl rfl)
  exact ⟨h.1, h.2.1⟩

/-- C6: selecting option 2 with a query that strips to empty
substitutes exactly the fixed default question before delegating to the
summarizer, and with that default query no extra query-answering
instruction is appended to the system prompt. -/
theorem empty_query_default_substitution (E : Type)
    (choice_raw task_input query_raw : String)
    (agent_run : String → Except E Unit)
    (svc : String → Except E String)
    (hc : pyStrip choice_raw = "2") (hq : pyStrip query_raw = "") :
    (loop_iteration E choice_raw task_input query_raw agent_run
        svc).summarizer_query = some defaultQuery ∧
    query_instruction defaultQuery = "" ∧
    system_prompt defaultQuery = system_prompt "" := by
  refine ⟨?_, ?_, ?_⟩
  · rcases hr : svc defaultQuery with e | s <;>
      simp [loop_iteration, hc, hq, hr]
  · simp [query_instruction]
  · simp [system_prompt, query_instruction]

/-- C6 witness: entering `2` and an all-whitespace query delegates with
the default question. -/
theorem empty_query_default_substitution_witness :
    (loop_iteration String "2" "" "  " (fun _ => Except.ok ())
        (fun _ => Except.ok "sum")).summarizer_query
      = some defaultQuery := by
  exact (empty_query_default_substitution String "2" "" "  "
    (fun _ => Except.ok ()) (fun _ => Except.ok "sum")
    (by decide) (by decide)).1

/-- On a successful fetch, the sent message list is `build_messages`,
whether or not the model invocation succeeds. -/
theorem summarize_sent_messages_ok (E : Type) (q : String)
    (state : BrowserStateSummary)
    (llm : List Message → Except E LLMResponse) :
    (summarize E q (Except.ok state) llm).sent_messages
      = some (build_messages q state) := by
  rcases hl : llm (build_messages q state) with e | resp <;>
    simp [summarize, hl]

/-- On a successful fetch, the warning flag equals the one computed by
`content_list`, whether or not the model invocation succeeds. -/
theorem summarize_warned_ok (E : Type) (q : String)
    (state : BrowserStateSummary)
    (llm : List Message → Except E LLMResponse) :
    (summarize E q (Except.ok state) llm).warned_no_screenshot
      = (content_list state).2 := by
  rcases hl : llm (build_messages q state) with e | resp <;>
    simp [summarize, hl]

/-- C9: a page state whose screenshot field holds the empty string is
handled exactly like one with no screenshot at all — no image part, the
missing-screenshot warning, and an identical summarize outcome —
because the image part is gated on Python truthiness of the value. -/
theorem empty_screenshot_treated_as_absent (E : Type) (q : String)
    (state : BrowserStateSummary)
    (llm : List Message → Except E LLMResponse)
    (h : state.screenshot = some "") :
    (content_list state).2 = true ∧
    (∀ p ∈ (content_list state).1, p.isImage = false) ∧
    optStrTruthy state.screenshot = optStrTruthy none ∧
    summarize E q (Except.ok state) llm
      = summarize E q (Except.ok { state with screenshot := none }) llm := by
  obtain ⟨d, shot⟩ := state
  simp only [BrowserStateSummary.mk.injEq] at h
  subst h
  refine ⟨?_, ?_, ?_, ?_⟩
  · simp [content_list]
  · simp [content_list, ContentPart.isImage]
  · simp [optStrTruthy]
  · rfl

/-- C9 witness: a concrete state with an empty-string screenshot warns
and produces no image part. -/
theorem empty_screenshot_treated_as_absent_witness :
    (content_list sampleEmptyShotState).2 = true ∧
    (∀ p ∈ (content_list sampleEmptyShotState).1, p.isImage = false) := by
  have h := empty_screenshot_treated_as_absent String "Q"
    sampleEmptyShotState sampleLLM rfl
  exact ⟨h.1, h.2.1⟩

/-- C1: a summarization call that reaches the model sends exactly one
system message followed by exactly one user message; the user content
has exactly two parts (text, then image) when the screenshot is truthy,
and exactly one text part plus a logged warning when it is not, so it
never contains more than one image part. -/
theorem summarize_message_shape (E : Type) (q : String)
    (state : BrowserStateSummary)
    (llm : List Message → Except E LLMResponse) :
    ∃ sys parts,
      (summarize E q (Except.ok state) llm).sent_messages
        = some [Message.system sys, Message.user parts] ∧
      List.countP (fun p => p.isImage) parts ≤ 1 ∧
      (optStrTruthy state.screenshot = true →
        ∃ t u m, parts = [ContentPart.text t, ContentPart.image u m]) ∧
      (optStrTruthy state.screenshot = false →
        (∃ t, parts = [ContentPart.text t]) ∧
        (summarize E q (Except.ok state) llm).warned_no_screenshot
          = true) := by
  refine ⟨system_prompt q, (content_list state).1, ?_, ?_, ?_, ?_⟩
  · rw [summarize_sent_messages_ok]
    rfl
  · rcases hs : state.screenshot with _ | shot
    · simp [content_list, hs, ContentPart.isImage]
    · by_cases he : (shot == "") = true <;>
        simp [content_list, hs, he, ContentPart.isImage]
  · intro ht
    rcases hs : state.screenshot with _ | shot
    · simp [optStrTruthy, hs] at ht
    · have he : (shot == "") = false := by
        simp [optStrTruthy, hs] at ht
        simpa using ht
      refine ⟨user_text (ui_elements_text state),
        "data:image/png;base64," ++ shot, "image/png", ?_⟩
      simp [content_list, hs, he]
  · intro hf
    rw [summarize_warned_ok]
    rcases hs : state.screenshot with _ | shot
    · exact ⟨⟨user_text (ui_elements_text state), by simp [content_list, hs]⟩,
        by simp [content_list, hs]⟩
    · have he : (shot == "") = true := by
        simp [optStrTruthy, hs] at hf
        simpa using hf
      exact ⟨⟨user_text (ui_elements_text state),
        by simp [content_list, hs, he]⟩, by simp [content_list, hs, he]⟩

/-- C1 witness: with the sample state (truthy screenshot) the sent
messages are one system then one user message whose content is a text
part followed by an image part. -/
theorem summarize_message_shape_witness :
    ∃ sys parts,
      (summarize String "Q" (Except.ok sampleState) sampleLLM).sent_messages
        = some [Message.system sys, Message.user parts] ∧
      ∃ t u m, parts = [ContentPart.text t, ContentPart.image u m] := by
  obtain ⟨sys, parts, h1, _, h3, _⟩ :=
    summarize_message_shape String "Q" sampleState sampleLLM
  exact ⟨sys, parts, h1, h3 (by decide)⟩

/-- C2: every exception in `summarize` — at the fetch or at the model
invocation — is logged with a trace and re-raised unchanged to the
caller, and the option-2 handler of the session loop absorbs it: it
prints the error together with the run-a-task-first hint, keeps the
loop alive, and does not terminate the browser handle. -/
theorem summarize_errors_reraised_loop_absorbs (E : Type) :
    (∀ (q : String) (fetch : Except E BrowserStateSummary)
        (llm : List Message → Except E LLMResponse) (e : E),
      (summarize E q fetch llm).result = Except.error e →
      (summarize E q fetch llm).logged_error_trace = true ∧
      summarize_page_state_from_session E q fetch llm = Except.error e) ∧
    (∀ (q : String) (e : E) (llm : List Message → Except E LLMResponse),
      (summarize E q (Except.error e) llm).result = Except.error e) ∧
    (∀ (q : String) (state : BrowserStateSummary)
        (llm : List Message → Except E LLMResponse) (e : E),
      llm (build_messages q state) = Except.error e →
      (summarize E q (Except.ok state) llm).result = Except.error e) ∧
    (∀ (choice_raw task_input query_raw : String)
        (agent_run : String → Except E Unit)
        (fetch : Except E BrowserStateSummary)
        (llm : List Message → Except E LLMResponse) (e : E),
      pyStrip choice_raw = "2" →
      summarize_page_state_from_session E
          (if pyStrip query_raw == "" then defaultQuery
            else pyStrip query_raw) fetch llm = Except.error e →
      (loop_iteration E choice_raw task_input query_raw agent_run
          (fun uq => summarize_page_state_from_session E uq fetch
            llm)).printed_summary_error = some e ∧
      (loop_iteration E choice_raw task_input query_raw agent_run
          (fun uq => summarize_page_state_from_session E uq fetch
            llm)).printed_run_task_first_hint = true ∧
      (loop_iteration E choice_raw task_input query_raw agent_run
          (fun uq => summarize_page_state_from_session E uq fetch
            llm)).continue_loop = true ∧
      (loop_iteration E choice_raw task_input query_raw agent_run
          (fun uq => summarize_page_state_from_session E uq fetch
            llm)).terminated_browser = false) := by
  refine ⟨?_, ?_, ?_, ?_⟩
  · intro q fetch llm e h
    rcases fetch with e' | state
    · simp [summarize] at h
      subst h
      exact ⟨rfl, by simp [summarize_page_state_from_session, summarize]⟩
    · rcases hl : llm (build_messages q state) with e'' | resp <;>
        simp [summarize, hl] at h
      subst h
      exact ⟨by simp [summarize, hl],
        by simp [summarize_page_state_from_session, summarize, hl]⟩
  · intro q e llm
    rfl
  · intro q state llm e hl
    simp [summarize, hl]
  · intro choice_raw task_input query_raw agent_run fetch llm e hc hsvc
    simp only [beq_iff_eq] at hsvc
    simp [loop_iteration, hc, hsvc, noDispatch]

/-- C2 witness: with a failing model client the error `boom` is logged,
re-raised unchanged, and absorbed by the option-2 handler (hint
printed, loop continues, browser untouched). -/
theorem summarize_errors_reraised_loop_absorbs_witness :
    (summarize String "Q" (Except.ok sampleState) failLLM).logged_error_trace
      = true ∧
    summarize_page_state_from_session String "Q" (Except.ok sampleState)
      failLLM = Except.error "boom" ∧
    (loop_iteration String "2" "" "" (fun _ => Except.ok ())
        (fun uq => summarize_page_state_from_session String uq
          (Except.ok sampleState) failLLM)).printed_run_task_first_hint
      = true ∧
    (loop_iteration String "2" "" "" (fun _ => Except.ok ())
        (fun uq => summarize_page_state_from_session String uq
          (Except.ok sampleState) failLLM)).terminated_browser = false := by
  have h := summarize_errors_reraised_loop_absorbs String
  have h1 := h.1 "Q" (Except.ok sampleState) failLLM "boom" rfl
  have h4 := h.2.2.2 "2" "" "" (fun _ => Except.ok ())
    (Except.ok sampleState) failLLM "boom" rfl rfl
  exact ⟨h1.1, h1.2, h4.2.1, h4.2.2.2⟩

end BrowserUse
